import Mathlib

/-!
Verification of the AskDash backend core against its specification.

The Python sources under `backend/app` are shallowly embedded:
pure string manipulation becomes functions on `List Char`, the
SQLAlchemy / network boundary becomes explicit outcome fields on the
connection model, Python exceptions become `Except`, and the global
dictionaries (connection registry, query history) become maps
`String → Option _` threaded through explicit state.
-/

namespace AskDash

/-! ## Python string primitives

These model the behaviour of CPython string methods on ASCII text:
`str.strip()`, `str.split()` (no separator: split on whitespace runs,
discarding empties), `str.split('\n')`, `str.upper()`, `str.lower()`,
`in` (substring containment), `startswith` and `endswith`. -/

/-- Characters treated as whitespace by Python's `str.strip` / `str.split`. -/
def pyIsSpace (c : Char) : Bool :=
  c = ' ' || c = '\t' || c = '\n' || c = '\r' || c = '\x0b' || c = '\x0c'

/-- Model of Python `str.strip()`: drop whitespace from both ends. -/
def pyStrip (l : List Char) : List Char :=
  ((l.dropWhile pyIsSpace).reverse.dropWhile pyIsSpace).reverse

/-- Fuel-driven worker for `pySplitWs`; fuel bounds the number of steps. -/
def pySplitWsF : Nat → List Char → List (List Char)
  | 0, _ => []
  | _ + 1, [] => []
  | n + 1, c :: cs =>
    if pyIsSpace c then
      pySplitWsF n cs
    else
      (c :: cs.takeWhile (fun x => !pyIsSpace x)) ::
        pySplitWsF n (cs.dropWhile (fun x => !pyIsSpace x))

/-- Model of Python `str.split()` with no argument: split on runs of
whitespace, never producing empty words. -/
def pySplitWs (l : List Char) : List (List Char) :=
  pySplitWsF l.length l

/-- Model of Python `str.split('\n')`: split on every newline, keeping
empty pieces (so `"".split('\n') == ['']`). -/
def pySplitNl : List Char → List (List Char)
  | [] => [[]]
  | c :: cs =>
    if c = '\n' then [] :: pySplitNl cs
    else
      match pySplitNl cs with
      | [] => [[c]]
      | w :: ws => (c :: w) :: ws

/-- Model of Python `str.upper()` on ASCII text. -/
def pyUpper (l : List Char) : List Char :=
  l.map Char.toUpper

/-- Model of Python `str.lower()` on ASCII text. -/
def pyLower (l : List Char) : List Char :=
  l.map Char.toLower

/-- Model of Python's substring test `needle in hay`. -/
def pyContains (needle : List Char) : List Char → Bool
  | [] => needle.isEmpty
  | c :: cs => needle.isPrefixOf (c :: cs) || pyContains needle cs

/-- Join a list of words with single spaces, modelling `' '.join(words)`. -/
def joinSpace (ws : List (List Char)) : List Char :=
  match ws with
  | [] => []
  | w :: rest => w ++ (rest.map (fun x => ' ' :: x)).flatten

/-! ## Embedding of `app/core/database.py` -/

/-- Supported database dialects (`DatabaseType` enum). -/
inductive DatabaseType
  | mysql
  | postgresql
  | mariadb
  | sqlite
deriving DecidableEq

/-- Scalar values appearing in a result row.  Python `bool` is a
subclass of `int`, so `vBool` counts as numeric for `isinstance(value,
(int, float))`; floats are carried as rationals. -/
inductive Value
  | vInt (n : Int)
  | vFloat (q : Rat)
  | vStr (s : String)
  | vBool (b : Bool)
  | vNone
deriving DecidableEq

/-- Model of `isinstance(value, (int, float))` in Python, where `bool`
is an `int` subclass. -/
def Value.isNumeric : Value → Bool
  | .vInt _ => true
  | .vFloat _ => true
  | .vBool _ => true
  | _ => false

/-- One result row: an insertion-ordered mapping from column name to
value, modelling the Python `dict(zip(columns, row))`. -/
abbrev Row := List (String × Value)

/-- Model of one `DatabaseConnection`.  The network-dependent behaviour
of the SQLAlchemy engine is captured by explicit outcome fields:
`connectOk` is the outcome of `connect()` (engine creation plus the
`SELECT 1` liveness probe), `testOk` the outcome of
`test_connection()`, `schemaOk` whether `get_schema_info()` succeeds,
and `backend` the backend's response to a SQL text once the textual
gate of `execute_query` has been passed. -/
structure DBConn where
  connection_string : String
  db_type : DatabaseType
  connectOk : Bool
  testOk : Bool
  schemaOk : Bool
  backend : String → Except String (List Row)

/-- Normalization performed by `execute_query` before the gate check:
`' '.join(query.strip().split()).upper()`. -/
def normalizeQuery (q : String) : List Char :=
  pyUpper (joinSpace (pySplitWs (pyStrip q.data)))

/-- Textual read-only gate of `execute_query`:
`query_cleaned.startswith('SELECT')`. -/
def selectGate (q : String) : Bool :=
  "SELECT".data.isPrefixOf (normalizeQuery q)

/-- Failure modes of `DatabaseConnection.execute_query`.  The source
wraps both in a generic `Exception("Query execution failed: ...")`;
the constructors keep the provenance (policy gate vs backend error)
that the wrapped message text encodes. -/
inductive QueryError
  | policyViolation
  | backendError (msg : String)
deriving DecidableEq

/-- Model of `DatabaseConnection.execute_query`: reject non-SELECT text
at the textual gate, otherwise run the statement on the backend. -/
def execute_query (conn : DBConn) (q : String) : Except QueryError (List Row) :=
  if selectGate q then (conn.backend q).mapError QueryError.backendError
  else .error .policyViolation

/-- Model of the `ConnectionManager` registry: the Python dict
`self.connections` observed through key lookup. -/
def ConnectionManager := String → Option DBConn

/-- Model of `ConnectionManager.add_connection`: attempt
`connection.connect()` (engine creation plus `SELECT 1` probe); store
the entry only on success, report the outcome. -/
def add_connection (mgr : ConnectionManager) (connection_id : String)
    (conn : DBConn) : Bool × ConnectionManager :=
  if conn.connectOk then
    (true, fun k => if k = connection_id then some conn else mgr k)
  else
    (false, mgr)

/-- Model of `ConnectionManager.get_connection`: pure dict lookup. -/
def get_connection (mgr : ConnectionManager) (connection_id : String) :
    Option DBConn :=
  mgr connection_id

/-- Model of `ConnectionManager.remove_connection`: if the id is
present, dispose the pool and delete the entry; otherwise no change. -/
def remove_connection (mgr : ConnectionManager) (connection_id : String) :
    ConnectionManager :=
  match mgr connection_id with
  | some _ => fun k => if k = connection_id then none else mgr k
  | none => mgr

/-- Modelled from the spec: the spec's phrase "begins with the token
`SELECT`" read literally — the first whitespace-delimited word of the
case-folded statement is exactly `SELECT`.  Used only to compare the
spec's wording with the source's prefix test. -/
def beginsWithTokenSelect (q : String) : Bool :=
  match pySplitWs (pyStrip q.data) with
  | [] => false
  | t :: _ => pyUpper t = "SELECT".data

/-! ## JSON values and a model of Python `json.loads`

The parser follows RFC 8259 as `json.loads` does in its default strict
mode: objects and arrays with the standard punctuation, strings with
the usual escapes (raw control characters rejected, lone surrogate
escapes rejected), numbers without leading zeros, and nothing after
the top-level value but whitespace.  Numbers are carried exactly as
rationals.  (CPython extras outside every claim's scope — `NaN` /
`Infinity` literals and surrogate-pair combination — are omitted.) -/

/-- JSON values; object fields keep their textual order, duplicate
keys are resolved last-wins by `jobjGet`, as for a Python dict. -/
inductive JVal
  | jnull
  | jbool (b : Bool)
  | jnum (q : Rat)
  | jstr (s : String)
  | jarr (elems : List JVal)
  | jobj (fields : List (String × JVal))

/-- JSON insignificant whitespace. -/
def jIsWs (c : Char) : Bool :=
  c = ' ' || c = '\t' || c = '\n' || c = '\r'

/-- Numeric value of one hexadecimal digit. -/
def hexVal (c : Char) : Option Nat :=
  if '0' ≤ c ∧ c ≤ '9' then some (c.toNat - 48)
  else if 'a' ≤ c ∧ c ≤ 'f' then some (c.toNat - 87)
  else if 'A' ≤ c ∧ c ≤ 'F' then some (c.toNat - 55)
  else none

/-- Translation of a single-character JSON escape. -/
def escChar (c : Char) : Option Char :=
  if c = '"' then some '"'
  else if c = '\\' then some '\\'
  else if c = '/' then some '/'
  else if c = 'n' then some '\n'
  else if c = 't' then some '\t'
  else if c = 'r' then some '\r'
  else if c = 'b' then some '\x08'
  else if c = 'f' then some '\x0c'
  else none

/-- Parse the body of a JSON string literal (opening quote already
consumed), accumulator in reverse; the fuel bounds consumed input. -/
def jparseString : Nat → List Char → List Char → Option (String × List Char)
  | 0, _, _ => none
  | fuel + 1, acc, cs =>
    match cs with
    | [] => none
    | c :: rest =>
      if c = '"' then some (String.mk acc.reverse, rest)
      else if c = '\\' then
        match rest with
        | [] => none
        | e :: rest2 =>
          if e = 'u' then
            match rest2 with
            | h1 :: h2 :: h3 :: h4 :: rest3 =>
              match hexVal h1, hexVal h2, hexVal h3, hexVal h4 with
              | some a, some b, some c2, some d =>
                let n := ((a * 16 + b) * 16 + c2) * 16 + d
                if n < 0xd800 ∨ (0xdfff < n ∧ n < 0x110000) then
                  jparseString fuel (Char.ofNat n :: acc) rest3
                else none
              | _, _, _, _ => none
            | _ => none
          else
            match escChar e with
            | some ch => jparseString fuel (ch :: acc) rest2
            | none => none
      else if c.toNat < 32 then none
      else jparseString fuel (c :: acc) rest

/-- Numeric value of a digit string. -/
def digitsToNat (ds : List Char) : Nat :=
  ds.foldl (fun a c => a * 10 + (c.toNat - 48)) 0

/-- Parse the integer-part digits of a JSON number, enforcing the
no-leading-zero rule. -/
def jparseIntPart (cs : List Char) : Option (List Char × List Char) :=
  match cs.takeWhile Char.isDigit with
  | [] => none
  | d :: rest =>
    if d = '0' ∧ rest ≠ [] then none
    else some (d :: rest, cs.dropWhile Char.isDigit)

/-- Parse an optional fraction part, returning its digits. -/
def jparseFrac (cs : List Char) : Option (List Char × List Char) :=
  match cs with
  | '.' :: t =>
    match t.takeWhile Char.isDigit with
    | [] => none
    | ds => some (ds, t.dropWhile Char.isDigit)
  | _ => some ([], cs)

/-- Parse an optional exponent part, returning the signed exponent. -/
def jparseExp (cs : List Char) : Option (Int × List Char) :=
  match cs with
  | c :: t =>
    if c = 'e' ∨ c = 'E' then
      match t with
      | '+' :: t2 =>
        match t2.takeWhile Char.isDigit with
        | [] => none
        | ds => some ((digitsToNat ds : Int), t2.dropWhile Char.isDigit)
      | '-' :: t2 =>
        match t2.takeWhile Char.isDigit with
        | [] => none
        | ds => some (-(digitsToNat ds : Int), t2.dropWhile Char.isDigit)
      | _ =>
        match t.takeWhile Char.isDigit with
        | [] => none
        | ds => some ((digitsToNat ds : Int), t.dropWhile Char.isDigit)
    else some (0, cs)
  | [] => some (0, [])

/-- Parse an unsigned JSON number as an exact rational. -/
def jparseNumberPos (cs : List Char) : Option (Rat × List Char) :=
  match jparseIntPart cs with
  | none => none
  | some (ids, cs2) =>
    match jparseFrac cs2 with
    | none => none
    | some (fds, cs3) =>
      match jparseExp cs3 with
      | none => none
      | some (e, cs4) =>
        let mant : Rat := (digitsToNat (ids ++ fds) : Nat)
        let base : Rat := mant / ((10 : Rat) ^ fds.length)
        let q : Rat :=
          if 0 ≤ e then base * (10 : Rat) ^ e.toNat
          else base / (10 : Rat) ^ (-e).toNat
        some (q, cs4)

/-- Parse a JSON number with optional leading minus sign. -/
def jparseNumber (cs : List Char) : Option (Rat × List Char) :=
  match cs with
  | '-' :: t => (jparseNumberPos t).map (fun p => (-p.1, p.2))
  | _ => jparseNumberPos cs

mutual

/-- Parse one JSON value after skipping leading whitespace; the fuel
bounds the recursion. -/
def jparseValue : Nat → List Char → Option (JVal × List Char)
  | 0, _ => none
  | fuel + 1, cs0 =>
    let cs := cs0.dropWhile jIsWs
    match cs with
    | [] => none
    | c :: rest =>
      if c = '"' then
        (jparseString (rest.length + 1) [] rest).map (fun p => (JVal.jstr p.1, p.2))
      else if c = '{' then
        let r1 := rest.dropWhile jIsWs
        match r1 with
        | '}' :: r2 => some (.jobj [], r2)
        | _ => jparseObjectFields fuel [] r1
      else if c = '[' then
        let r1 := rest.dropWhile jIsWs
        match r1 with
        | ']' :: r2 => some (.jarr [], r2)
        | _ => jparseArray fuel [] r1
      else if c = 't' then
        match rest with
        | 'r' :: 'u' :: 'e' :: r => some (.jbool true, r)
        | _ => none
      else if c = 'f' then
        match rest with
        | 'a' :: 'l' :: 's' :: 'e' :: r => some (.jbool false, r)
        | _ => none
      else if c = 'n' then
        match rest with
        | 'u' :: 'l' :: 'l' :: r => some (.jnull, r)
        | _ => none
      else
        (jparseNumber cs).map (fun p => (JVal.jnum p.1, p.2))

/-- Parse the elements of a non-empty JSON array (opening bracket
consumed), accumulator in reverse. -/
def jparseArray : Nat → List JVal → List Char → Option (JVal × List Char)
  | 0, _, _ => none
  | fuel + 1, acc, cs =>
    match jparseValue fuel cs with
    | none => none
    | some (v, r) =>
      match r.dropWhile jIsWs with
      | ',' :: r3 => jparseArray fuel (v :: acc) r3
      | ']' :: r3 => some (.jarr (v :: acc).reverse, r3)
      | _ => none

/-- Parse the members of a non-empty JSON object (opening brace
consumed), accumulator in reverse. -/
def jparseObjectFields : Nat → List (String × JVal) → List Char →
    Option (JVal × List Char)
  | 0, _, _ => none
  | fuel + 1, acc, cs0 =>
    let cs := cs0.dropWhile jIsWs
    match cs with
    | '"' :: rest =>
      match jparseString (rest.length + 1) [] rest with
      | none => none
      | some (k, r) =>
        match r.dropWhile jIsWs with
        | ':' :: r3 =>
          match jparseValue fuel r3 with
          | none => none
          | some (v, r4) =>
            match r4.dropWhile jIsWs with
            | ',' :: r6 => jparseObjectFields fuel ((k, v) :: acc) r6
            | '}' :: r6 => some (.jobj ((k, v) :: acc).reverse, r6)
            | _ => none
        | _ => none
    | _ => none

end

/-- Model of Python `json.loads`: parse one value, then require only
whitespace to follow; any failure (or trailing data) is `none`. -/
def pyJsonLoads (s : String) : Option JVal :=
  match jparseValue (2 * s.data.length + 4) s.data with
  | some (v, rest) => if (rest.dropWhile jIsWs).isEmpty then some v else none
  | none => none

/-- Membership test `key in result` on a parsed object's fields. -/
def jobjHasKey (fields : List (String × JVal)) (k : String) : Bool :=
  fields.any (fun p => p.1 == k)

/-- Lookup `result[key]` on a parsed object's fields; with duplicate
keys the last occurrence wins, as when Python builds the dict. -/
def jobjGet (fields : List (String × JVal)) (k : String) : Option JVal :=
  (fields.reverse.find? (fun p => p.1 == k)).map (fun p => p.2)

/-! ## Embedding of `app/services/ai_service.py`

The response-processing part of `AIQueryService.generate_sql` (from
`content = response...strip()` onwards) is embedded as a pure function
of the model's reply text.  The provider call itself is the external
boundary; its outcome enters the route models as a parameter. -/

/-- Collect characters of a list up to and including the first `'}'`;
`none` when there is no closing brace.  Together with `firstJsonSpan`
this realises the non-greedy regex search for the span from the first
opening brace to the first closing brace at or after it. -/
def takeThroughRBrace : List Char → Option (List Char)
  | [] => none
  | c :: cs =>
    if c = '}' then some [c]
    else (takeThroughRBrace cs).map (fun l => c :: l)

/-- Model of the `DOTALL` search for the leftmost shortest span
matching an opening brace, any characters, then a closing brace. -/
def firstJsonSpan (cs : List Char) : Option (List Char) :=
  match cs.dropWhile (fun c => !(c == '{')) with
  | [] => none
  | b :: rest => (takeThroughRBrace rest).map (fun l => b :: l)

/-- First half of the code-fence stripping: drop a leading
7-character marker when the content starts with one. -/
def stripLeadFence (content : List Char) : List Char :=
  if "```json".data.isPrefixOf content then content.drop 7 else content

/-- Second half of the code-fence stripping: drop a trailing
3-backtick marker when present. -/
def stripTrailFence (content : List Char) : List Char :=
  if "```".data.isSuffixOf content then content.take (content.length - 3)
  else content

/-- Model of the code-fence stripping: the two independent checks of
the source, applied in order. -/
def stripFences (content : List Char) : List Char :=
  stripTrailFence (stripLeadFence content)

/-- Preprocessing applied to the raw model reply before any parse
attempt: outer strip, then fence stripping. -/
def preprocessContent (reply : String) : List Char :=
  stripFences (pyStrip reply.data)

/-- Combined parse attempt on the preprocessed content: when a brace
span exists, parse exactly that span; otherwise parse the whole
trimmed content.  Either failure yields `none` (the fallback path). -/
def attemptParse (content : List Char) : Option JVal :=
  match firstJsonSpan content with
  | some span => pyJsonLoads (String.mk span)
  | none => pyJsonLoads (String.mk (pyStrip content))

/-- Failures surfaced by the response pipeline.  `responseValidation`
models the `ValueError("Missing required fields in AI response")`;
`nonObjectPayload` models the `TypeError` paths that a successfully
parsed non-object payload triggers in the membership checks (exotic
string payloads containing all keys as substrings are collapsed into
the same branch; no claim reaches them). -/
inductive AiError
  | responseValidation
  | nonObjectPayload
deriving DecidableEq

/-- Shape of the dict `generate_sql` returns. -/
abbrev GenDict := List (String × JVal)

/-- Keys required of the parsed model response. -/
def requiredKeys : List String := ["sql", "explanation", "visualization_hint"]

/-- Validation of a successfully parsed payload: require the three
fields, then default `confidence` to `0.8` when absent. -/
def validateResult : JVal → Except AiError GenDict
  | .jobj fields =>
    if requiredKeys.all (fun k => jobjHasKey fields k) then
      .ok (if jobjHasKey fields "confidence" then fields
           else fields ++ [("confidence", .jnum ((4 : Rat) / 5))])
    else .error .responseValidation
  | _ => .error .nonObjectPayload

/-- Heuristic SQL extraction of the fallback path: keep every line of
the content that is non-blank after stripping and whose stripped form
does not start with `'#'`, and join the kept (unstripped) lines with
single spaces. -/
def fallbackSql (content : List Char) : String :=
  let kept := (pySplitNl content).filter
    (fun l => !(pyStrip l).isEmpty && !("#".data.isPrefixOf (pyStrip l)))
  String.mk (joinSpace kept)

/-- Dict synthesized by the fallback path. -/
def fallbackFields (content : List Char) : GenDict :=
  [("sql", .jstr (fallbackSql content)),
   ("explanation", .jstr "Generated SQL query from natural language"),
   ("visualization_hint", .jstr "table"),
   ("confidence", .jnum ((7 : Rat) / 10))]

/-- Response repair pipeline of `generate_sql`: preprocess, attempt
the span parse (or, with no span, the whole-content parse), validate
a parsed payload, and fall back to heuristic extraction when the
parse attempt fails. -/
def processResponse (reply : String) : Except AiError GenDict :=
  match attemptParse (preprocessContent reply) with
  | some v => validateResult v
  | none => .ok (fallbackFields (preprocessContent reply))

/-- Keywords whose presence in a lower-cased column name marks it as
temporal. -/
def timeWords : List String := ["date", "time", "created", "updated"]

/-- Test for a temporal column name. -/
def isTimeColumn (col : String) : Bool :=
  timeWords.any (fun w => pyContains w.data (pyLower col.data))

/-- Closed set of visualization types the route accepts verbatim. -/
def validVizTypes : List String :=
  ["table", "bar_chart", "line_chart", "pie_chart", "kpi"]

/-- Columns observed to hold a numeric value in the first three rows,
in first-observation order, mirroring the nested loop of
`suggest_visualization`. -/
def numericColsIn (data : List Row) : List String :=
  (data.take 3).foldl
    (fun acc row =>
      row.foldl
        (fun acc2 cv =>
          if cv.2.isNumeric && !(acc2.contains cv.1) then acc2 ++ [cv.1]
          else acc2)
        acc)
    []

/-- Model of `AIQueryService.suggest_visualization`: the rules are
evaluated top to bottom and the first match wins. -/
def suggest_visualization (data : List Row) (columns : List String) : String :=
  if data = [] ∨ columns = [] then "table"
  else if data.length = 1 ∧ columns.length = 1 then "kpi"
  else
    let time_columns := columns.filter isTimeColumn
    if time_columns ≠ [] ∧ 1 < data.length then "line_chart"
    else if columns.length = 2 ∧ data.length ≤ 20 then
      if numericColsIn data ≠ [] then
        if 5 < data.length then "bar_chart" else "pie_chart"
      else "table"
    else "table"

/-! ## Embedding of the query, rerun and export routes

Timestamps (`datetime.now()`), the measured duration (`time.time()`
differences) and the freshly drawn `uuid4` are external inputs of the
routes; they enter as parameters.  The result and history timestamps
are distinct parameters because the source stamps each with its own
`datetime.now()` call. -/

/-- Model of a `QueryHistory` record (`app/models/schemas.py`). -/
structure QueryHistory where
  query_id : String
  original_query : String
  generated_sql : String
  connection_id : String
  timestamp : Nat
  execution_time : Nat
  row_count : Nat
  visualization_type : String
deriving DecidableEq

/-- Model of a `QueryResult` payload (`app/models/schemas.py`). -/
structure QueryResult where
  query_id : String
  original_query : String
  generated_sql : String
  data : List Row
  columns : List String
  row_count : Nat
  execution_time : Nat
  visualization_type : String
  timestamp : Nat
deriving DecidableEq

/-- Shared mutable state the routes act on: the connection registry
and the in-memory `query_history` dict. -/
structure AppState where
  connections : ConnectionManager
  history : String → Option QueryHistory

/-- Column extraction `list(data[0].keys()) if data else []`. -/
def rowKeys (data : List Row) : List String :=
  match data with
  | [] => []
  | r :: _ => r.map (fun p => p.1)

/-- Store a history entry under a key in the history dict. -/
def storeHistory (h : String → Option QueryHistory) (k : String)
    (e : QueryHistory) : String → Option QueryHistory :=
  fun x => if x = k then some e else h x

/-- Error outcomes of the query routes (HTTP 404/400 conditions). -/
inductive RouteError
  | queryNotFound
  | connectionNotFound
  | connectionUnavailable
  | schemaFailed
  | aiFailed
  | missingSqlKey
  | sqlNotText
  | executionFailed (e : QueryError)
deriving DecidableEq

/-- Visualization choice of the natural-language route: take the AI
hint when it is a non-empty member of the closed set, fall back to the
heuristic otherwise; an absent hint defaults to `table` (which the
membership test then keeps). -/
def chooseViz (ai : GenDict) (data : List Row) (columns : List String) :
    String :=
  match jobjGet ai "visualization_hint" with
  | none => "table"
  | some (.jstr h) =>
    if h ≠ "" ∧ h ∈ validVizTypes then h
    else suggest_visualization data columns
  | some _ => suggest_visualization data columns

/-- Model of the route `execute_natural_language_query`.  `aiOutcome`
is the outcome of `ai_service.generate_sql(request.query,
schema_info)`; `query_id` the fresh uuid; `dur` the measured
execution time; `t_result` and `t_entry` the two `datetime.now()`
stamps. -/
def execute_nl_query (st : AppState) (connection_id nl_query : String)
    (aiOutcome : Except String GenDict) (query_id : String)
    (dur t_result t_entry : Nat) : Except RouteError (QueryResult × AppState) :=
  match get_connection st.connections connection_id with
  | none => .error .connectionNotFound
  | some conn =>
    if conn.testOk then
      if conn.schemaOk then
        match aiOutcome with
        | .error _ => .error .aiFailed
        | .ok ai =>
          match jobjGet ai "sql" with
          | none => .error .missingSqlKey
          | some (.jstr generated_sql) =>
            match execute_query conn generated_sql with
            | .error e => .error (.executionFailed e)
            | .ok data =>
              let columns := rowKeys data
              let visualization_type := chooseViz ai data columns
              let result : QueryResult :=
                { query_id := query_id
                  original_query := nl_query
                  generated_sql := generated_sql
                  data := data
                  columns := columns
                  row_count := data.length
                  execution_time := dur
                  visualization_type := visualization_type
                  timestamp := t_result }
              let history_entry : QueryHistory :=
                { query_id := query_id
                  original_query := nl_query
                  generated_sql := generated_sql
                  connection_id := connection_id
                  timestamp := t_entry
                  execution_time := dur
                  row_count := data.length
                  visualization_type := visualization_type }
              .ok (result,
                { st with history := storeHistory st.history query_id history_entry })
          | some _ => .error .sqlNotText
      else .error .schemaFailed
    else .error .connectionUnavailable

/-- Model of the route `rerun_query`: look up the stored entry,
re-validate its connection, re-execute the stored SQL, and mint a new
history entry under a fresh uuid, leaving the original in place. -/
def rerun_query (st : AppState) (query_id new_query_id : String)
    (dur t_result t_entry : Nat) : Except RouteError (QueryResult × AppState) :=
  match st.history query_id with
  | none => .error .queryNotFound
  | some entry =>
    match get_connection st.connections entry.connection_id with
    | none => .error .connectionNotFound
    | some conn =>
      if conn.testOk then
        match execute_query conn entry.generated_sql with
        | .error e => .error (.executionFailed e)
        | .ok data =>
          let result : QueryResult :=
            { query_id := new_query_id
              original_query := entry.original_query
              generated_sql := entry.generated_sql
              data := data
              columns := rowKeys data
              row_count := data.length
              execution_time := dur
              visualization_type := entry.visualization_type
              timestamp := t_result }
          let new_history_entry : QueryHistory :=
            { query_id := new_query_id
              original_query := entry.original_query
              generated_sql := entry.generated_sql
              connection_id := entry.connection_id
              timestamp := t_entry
              execution_time := dur
              row_count := data.length
              visualization_type := entry.visualization_type }
          .ok (result,
            { st with history := storeHistory st.history new_query_id new_history_entry })
      else .error .connectionUnavailable

/-- Error outcomes of the CSV export route. -/
inductive ExportError
  | queryNotFound
  | connectionNotFound
  | executionFailed (e : QueryError)
  | noData
deriving DecidableEq

/-- Material handed to `csv.DictWriter`: the fieldnames taken from the
first row's keys and the rows to serialize.  The textual CSV
rendering itself is the out-of-scope serialization boundary. -/
structure CsvOut where
  fieldnames : List String
  rows : List Row
deriving DecidableEq

/-- Model of the route `export_to_csv`: look up the entry and its
connection (no liveness re-check here), re-execute the stored SQL for
fresh data, fail explicitly on an empty row set, otherwise derive the
header from the first row's keys. -/
def export_to_csv (st : AppState) (query_id : String) :
    Except ExportError CsvOut :=
  match st.history query_id with
  | none => .error .queryNotFound
  | some entry =>
    match get_connection st.connections entry.connection_id with
    | none => .error .connectionNotFound
    | some conn =>
      match execute_query conn entry.generated_sql with
      | .error e => .error (.executionFailed e)
      | .ok [] => .error .noData
      | .ok (r :: rest) =>
        .ok { fieldnames := r.map (fun p => p.1), rows := r :: rest }

/-! ## Concrete fixtures used by witnesses -/

/-- Healthy sqlite connection whose backend returns an empty row set. -/
def okConn : DBConn :=
  { connection_string := "sqlite:///demo.db"
    db_type := .sqlite
    connectOk := true
    testOk := true
    schemaOk := true
    backend := fun _ => .ok [] }

/-- Connection whose `connect()` (open or liveness probe) fails. -/
def badConn : DBConn :=
  { okConn with connectOk := false }

/-- Registry with no entries. -/
def emptyMgr : ConnectionManager := fun _ => none

/-! ## Shared lemmas -/

/-- Characterization of the PolicyViolation outcome of `execute_query`:
the statement is rejected at the gate exactly when its normalized,
case-folded text does not start with the string `SELECT`. -/
theorem execute_query_policy_iff (conn : DBConn) (q : String) :
    execute_query conn q = .error .policyViolation ↔ selectGate q = false := by
  unfold execute_query
  by_cases h : selectGate q
  · simp only [h, if_pos]
    constructor
    · intro hcontr
      cases hb : conn.backend q <;> simp [hb, Except.mapError] at hcontr
    · intro hfalse
      simp [h] at hfalse
  · simp [h]

/-! ## Claim C1 -/

/-- Claim C1, counterexample: the source gate tests a six-character
string prefix, not a whitespace-delimited token.  The statement
`SELECTION FROM t` is accepted by `execute_query` (no PolicyViolation)
although its whitespace-normalized, case-folded text does not begin
with the token `SELECT` (its first token is `SELECTION`), refuting the
"exactly those" characterization of the claim. -/
theorem c1_token_gate_counterexample :
    execute_query okConn "SELECTION FROM t" = .ok [] ∧
    beginsWithTokenSelect "SELECTION FROM t" = false := by
  constructor <;> rfl

/-- Claim C1 (amended): `execute_query` rejects with a PolicyViolation
exactly those statements whose whitespace-normalized, case-folded text
does not begin with the six-character prefix `SELECT` (`selectGate` is
precisely that prefix test); in particular `"  select * from t"` is
accepted, `"DELETE FROM t"` is rejected, and the multi-statement
payload `"SELECT 1; DROP TABLE t"` passes the gate. -/
theorem c1_select_gate (conn : DBConn) (q : String) :
    (execute_query conn q = .error .policyViolation ↔ selectGate q = false) ∧
    execute_query conn "  select * from t" ≠ .error .policyViolation ∧
    execute_query conn "DELETE FROM t" = .error .policyViolation ∧
    execute_query conn "SELECT 1; DROP TABLE t" ≠ .error .policyViolation := by
  refine ⟨execute_query_policy_iff conn q, ?_, ?_, ?_⟩
  · intro hcontr
    have := (execute_query_policy_iff conn "  select * from t").mp hcontr
    simp [show selectGate "  select * from t" = true from rfl] at this
  · exact (execute_query_policy_iff conn "DELETE FROM t").mpr rfl
  · intro hcontr
    have := (execute_query_policy_iff conn "SELECT 1; DROP TABLE t").mp hcontr
    simp [show selectGate "SELECT 1; DROP TABLE t" = true from rfl] at this

/-- Claim C1 witness: the amended theorem applied at a concrete
connection and statement. -/
theorem c1_select_gate_witness :
    execute_query okConn "DELETE FROM t" = .error .policyViolation :=
  (c1_select_gate okConn "DELETE FROM t").2.2.1

/-! ## Claim C2 -/

/-- Claim C2: registration is atomic all-or-nothing — `add_connection`
reports the outcome of the connect-and-probe attempt; when it fails
the registry is returned unchanged (no entry is stored), and when it
succeeds the entry is stored under the id. -/
theorem c2_register_atomic (mgr : ConnectionManager) (cid : String)
    (conn : DBConn) :
    (add_connection mgr cid conn).1 = conn.connectOk ∧
    (conn.connectOk = false → add_connection mgr cid conn = (false, mgr)) ∧
    (conn.connectOk = true → (add_connection mgr cid conn).2 cid = some conn) := by
  unfold add_connection
  by_cases h : conn.connectOk <;> simp [h]

/-- Claim C2 witness: a failing probe leaves the empty registry
unchanged and reports failure. -/
theorem c2_register_atomic_witness :
    add_connection emptyMgr "db1" badConn = (false, emptyMgr) :=
  (c2_register_atomic emptyMgr "db1" badConn).2.1 rfl

/-! ## Claim C9 -/

/-- Claim C9: registry mutations are frame-local — registering or
removing connection `a` leaves `get_connection` at any other id `b`
exactly as it was. -/
theorem c9_registry_frame (mgr : ConnectionManager) (a b : String)
    (conn : DBConn) (hab : a ≠ b) :
    get_connection (add_connection mgr a conn).2 b = get_connection mgr b ∧
    get_connection (remove_connection mgr a) b = get_connection mgr b := by
  constructor
  · unfold add_connection get_connection
    by_cases h : conn.connectOk <;> simp [h, Ne.symm hab]
  · unfold remove_connection get_connection
    cases mgr a <;> simp [Ne.symm hab]

/-- Claim C9 witness: the frame property at concrete ids `a ≠ b`. -/
theorem c9_registry_frame_witness :
    get_connection (add_connection emptyMgr "a" okConn).2 "b" =
      get_connection emptyMgr "b" ∧
    get_connection (remove_connection emptyMgr "a") "b" =
      get_connection emptyMgr "b" :=
  c9_registry_frame emptyMgr "a" "b" okConn (by decide)

/-! ## More fixtures for the route claims -/

/-- Stored history entry used by the route witnesses. -/
def sampleEntry : QueryHistory :=
  { query_id := "h1"
    original_query := "count users"
    generated_sql := "SELECT 1"
    connection_id := "c1"
    timestamp := 0
    execution_time := 0
    row_count := 1
    visualization_type := "table" }

/-- Healthy connection whose backend returns a single one-column row. -/
def rowConn : DBConn :=
  { okConn with backend := fun _ => .ok [[("a", Value.vInt 1)]] }

/-- State holding `sampleEntry` and `rowConn` under matching ids. -/
def sampleState : AppState :=
  { connections := fun k => if k = "c1" then some rowConn else none
    history := fun k => if k = "h1" then some sampleEntry else none }

/-- State like `sampleState` whose connection returns zero rows. -/
def sampleStateEmptyRows : AppState :=
  { connections := fun k => if k = "c1" then some okConn else none
    history := fun k => if k = "h1" then some sampleEntry else none }

/-! ## Claim C7 -/

/-- Claim C7: for a stored history id whose connection still exists,
passes the liveness re-check, and executes successfully, `rerun_query`
re-executes the stored SQL (the model contains no call into the
NL-to-SQL engine at all), returns a result carrying the stored SQL and
the freshly minted id, stores a new entry under the new id with
`generated_sql` identical to the original's, and leaves the original
entry in the store unchanged.  Distinctness of the fresh uuid4 from
the stored id is the freshness hypothesis `hfresh`. -/
theorem c7_rerun_mints_new_entry (st : AppState)
    (query_id new_query_id : String) (entry : QueryHistory) (conn : DBConn)
    (data : List Row) (dur t_result t_entry : Nat)
    (hentry : st.history query_id = some entry)
    (hconn : get_connection st.connections entry.connection_id = some conn)
    (htest : conn.testOk = true)
    (hexec : execute_query conn entry.generated_sql = .ok data)
    (hfresh : new_query_id ≠ query_id) :
    ∃ res st',
      rerun_query st query_id new_query_id dur t_result t_entry =
        .ok (res, st') ∧
      res.generated_sql = entry.generated_sql ∧
      res.data = data ∧
      res.query_id = new_query_id ∧
      res.query_id ≠ query_id ∧
      (∃ ne, st'.history new_query_id = some ne ∧
        ne.query_id = new_query_id ∧
        ne.generated_sql = entry.generated_sql) ∧
      st'.history query_id = st.history query_id := by
  unfold rerun_query
  simp only [hentry, hconn, htest, if_true, hexec]
  refine ⟨_, _, rfl, rfl, rfl, rfl, hfresh,
    ⟨{ query_id := new_query_id, original_query := entry.original_query,
       generated_sql := entry.generated_sql,
       connection_id := entry.connection_id, timestamp := t_entry,
       execution_time := dur, row_count := data.length,
       visualization_type := entry.visualization_type }, ?_, rfl, rfl⟩, ?_⟩
  · simp [storeHistory]
  · simp [storeHistory, Ne.symm hfresh, hentry]

/-- Claim C7 witness: the rerun theorem at a concrete state. -/
theorem c7_rerun_mints_new_entry_witness :
    ∃ res st',
      rerun_query sampleState "h1" "h2" 3 10 11 = .ok (res, st') ∧
      res.generated_sql = sampleEntry.generated_sql ∧
      res.data = [[("a", Value.vInt 1)]] ∧
      res.query_id = "h2" ∧
      res.query_id ≠ "h1" ∧
      (∃ ne, st'.history "h2" = some ne ∧
        ne.query_id = "h2" ∧
        ne.generated_sql = sampleEntry.generated_sql) ∧
      st'.history "h1" = sampleState.history "h1" :=
  c7_rerun_mints_new_entry sampleState "h1" "h2" sampleEntry rowConn
    [[("a", Value.vInt 1)]] 3 10 11 rfl rfl rfl rfl (by decide)

/-! ## Claim C8 -/

/-- Claim C8: CSV export of a stored entry re-executes the stored SQL;
with zero fresh rows it fails with the explicit no-data error and
emits nothing, and with rows present the emitted header is derived
from the keys of the first returned row. -/
theorem c8_csv_export (st : AppState) (query_id : String)
    (entry : QueryHistory) (conn : DBConn)
    (hentry : st.history query_id = some entry)
    (hconn : get_connection st.connections entry.connection_id = some conn) :
    (execute_query conn entry.generated_sql = .ok [] →
      export_to_csv st query_id = .error .noData) ∧
    (∀ r rest, execute_query conn entry.generated_sql = .ok (r :: rest) →
      export_to_csv st query_id =
        .ok { fieldnames := r.map (fun p => p.1), rows := r :: rest }) := by
  unfold export_to_csv
  simp only [hentry, hconn]
  constructor
  · intro h
    simp only [h]
  · intro r rest h
    simp only [h]

/-- Claim C8 witness: the export theorem at concrete states with zero
and with one returned row. -/
theorem c8_csv_export_witness :
    export_to_csv sampleStateEmptyRows "h1" = .error .noData ∧
    export_to_csv sampleState "h1" =
      .ok { fieldnames := ["a"], rows := [[("a", Value.vInt 1)]] } :=
  ⟨(c8_csv_export sampleStateEmptyRows "h1" sampleEntry okConn rfl rfl).1 rfl,
   (c8_csv_export sampleState "h1" sampleEntry rowConn rfl rfl).2
     [("a", Value.vInt 1)] [] rfl⟩

/-! ## Claim C10 -/

/-- Claim C10: on a successful natural-language execution the stored
history entry agrees with the returned result on `query_id`,
`original_query`, `generated_sql`, `row_count` and
`visualization_type`, and `row_count` is the number of returned rows.
The two timestamps are separate parameters (`t_result`, `t_entry`)
because the source stamps each with its own `datetime.now()` call. -/
theorem c10_history_matches_result (st : AppState)
    (connection_id nl_query : String) (ai : GenDict) (conn : DBConn)
    (generated_sql : String) (data : List Row) (query_id : String)
    (dur t_result t_entry : Nat)
    (hconn : get_connection st.connections connection_id = some conn)
    (htest : conn.testOk = true)
    (hschema : conn.schemaOk = true)
    (hsql : jobjGet ai "sql" = some (.jstr generated_sql))
    (hexec : execute_query conn generated_sql = .ok data) :
    ∃ res st',
      execute_nl_query st connection_id nl_query (.ok ai) query_id dur
        t_result t_entry = .ok (res, st') ∧
      ∃ he, st'.history query_id = some he ∧
        he.query_id = res.query_id ∧
        he.original_query = res.original_query ∧
        he.generated_sql = res.generated_sql ∧
        he.row_count = res.row_count ∧
        he.visualization_type = res.visualization_type ∧
        res.row_count = data.length := by
  unfold execute_nl_query
  simp only [hconn, htest, hschema, if_true, hsql, hexec]
  refine ⟨_, _, rfl,
    ⟨{ query_id := query_id, original_query := nl_query,
       generated_sql := generated_sql, connection_id := connection_id,
       timestamp := t_entry, execution_time := dur,
       row_count := data.length,
       visualization_type := chooseViz ai data (rowKeys data) },
     ?_, rfl, rfl, rfl, rfl, rfl, rfl⟩⟩
  simp [storeHistory]

/-- Claim C10 witness: the agreement theorem at a concrete state and
AI outcome. -/
theorem c10_history_matches_result_witness :
    ∃ res st',
      execute_nl_query sampleState "c1" "count users"
        (.ok [("sql", .jstr "SELECT 1"), ("visualization_hint", .jstr "table")])
        "q1" 3 10 11 = .ok (res, st') ∧
      ∃ he, st'.history "q1" = some he ∧
        he.query_id = res.query_id ∧
        he.original_query = res.original_query ∧
        he.generated_sql = res.generated_sql ∧
        he.row_count = res.row_count ∧
        he.visualization_type = res.visualization_type ∧
        res.row_count = [[("a", Value.vInt 1)]].length :=
  c10_history_matches_result sampleState "c1" "count users"
    [("sql", .jstr "SELECT 1"), ("visualization_hint", .jstr "table")]
    rowConn "SELECT 1" [[("a", Value.vInt 1)]] "q1" 3 10 11
    rfl rfl rfl rfl rfl

/-! ## Claim C6 -/

/-- Eight rows of `{month, total}` with numeric totals. -/
def barData : List Row :=
  [[("month", Value.vStr "Jan"), ("total", Value.vInt 10)],
   [("month", Value.vStr "Feb"), ("total", Value.vInt 20)],
   [("month", Value.vStr "Mar"), ("total", Value.vInt 30)],
   [("month", Value.vStr "Apr"), ("total", Value.vInt 40)],
   [("month", Value.vStr "May"), ("total", Value.vInt 50)],
   [("month", Value.vStr "Jun"), ("total", Value.vInt 60)],
   [("month", Value.vStr "Jul"), ("total", Value.vInt 70)],
   [("month", Value.vStr "Aug"), ("total", Value.vInt 80)]]

/-- Three rows of `{month, total}` with numeric totals. -/
def pieData : List Row :=
  [[("month", Value.vStr "Jan"), ("total", Value.vInt 10)],
   [("month", Value.vStr "Feb"), ("total", Value.vInt 20)],
   [("month", Value.vStr "Mar"), ("total", Value.vInt 30)]]

/-- Eight rows of `{date, total}`: both the temporal rule and the
two-column rule match, so whichever is checked first decides. -/
def dateTotalData : List Row :=
  [[("date", Value.vStr "d1"), ("total", Value.vInt 10)],
   [("date", Value.vStr "d2"), ("total", Value.vInt 20)],
   [("date", Value.vStr "d3"), ("total", Value.vInt 30)],
   [("date", Value.vStr "d4"), ("total", Value.vInt 40)],
   [("date", Value.vStr "d5"), ("total", Value.vInt 50)],
   [("date", Value.vStr "d6"), ("total", Value.vInt 60)],
   [("date", Value.vStr "d7"), ("total", Value.vInt 70)],
   [("date", Value.vStr "d8"), ("total", Value.vInt 80)]]

/-- Five rows carrying a `created_at` column. -/
def lineData : List Row :=
  [[("created_at", Value.vStr "t1"), ("total", Value.vInt 10)],
   [("created_at", Value.vStr "t2"), ("total", Value.vInt 20)],
   [("created_at", Value.vStr "t3"), ("total", Value.vInt 30)],
   [("created_at", Value.vStr "t4"), ("total", Value.vInt 40)],
   [("created_at", Value.vStr "t5"), ("total", Value.vInt 50)]]

/-- Claim C6: the heuristic's rules, evaluated in source order with
the first match winning, give the spec's vectors — a single
`{count: 42}` cell is `kpi`; any five-row result with a `created_at`
column is `line_chart`; `{month, total}` with numeric totals is
`bar_chart` over 8 rows and `pie_chart` over 3; an empty row set or an
empty column list is `table`.  The final conjunct shows order
sensitivity: on 8 rows of `{date, total}` both the temporal rule and
the bar-chart rule match and the earlier temporal rule wins. -/
theorem c6_visualization_heuristic :
    suggest_visualization [[("count", Value.vInt 42)]] ["count"] = "kpi" ∧
    (∀ (data : List Row) (columns : List String),
      "created_at" ∈ columns → data.length = 5 →
      suggest_visualization data columns = "line_chart") ∧
    suggest_visualization barData ["month", "total"] = "bar_chart" ∧
    suggest_visualization pieData ["month", "total"] = "pie_chart" ∧
    (∀ columns, suggest_visualization [] columns = "table") ∧
    (∀ data, suggest_visualization data [] = "table") ∧
    suggest_visualization dateTotalData ["date", "total"] = "line_chart" := by
  refine ⟨by decide, ?_, by decide, by decide, ?_, ?_, by decide⟩
  · intro data columns hmem hlen
    have hd : data ≠ [] := by
      intro h
      rw [h] at hlen
      simp at hlen
    have hc : columns ≠ [] := List.ne_nil_of_mem hmem
    have htime : columns.filter isTimeColumn ≠ [] :=
      List.ne_nil_of_mem (List.mem_filter.mpr ⟨hmem, by decide⟩)
    simp only [suggest_visualization]
    rw [if_neg (by simp [hd, hc]),
        if_neg (by rintro ⟨h1, -⟩; omega),
        if_pos ⟨htime, by omega⟩]
  · intro columns
    simp [suggest_visualization]
  · intro data
    simp [suggest_visualization]

/-- Claim C6 witness: the universally quantified temporal conjunct at
a concrete five-row result. -/
theorem c6_visualization_heuristic_witness :
    suggest_visualization lineData ["created_at", "total"] = "line_chart" :=
  c6_visualization_heuristic.2.1 lineData ["created_at", "total"]
    (by decide) (by decide)

/-! ## Claim C3 -/

/-- Failure of the span parse attempt: either no brace span exists, or
the extracted span is not valid JSON. -/
def spanParseFailed (content : List Char) : Bool :=
  match firstJsonSpan content with
  | some span => (pyJsonLoads (String.mk span)).isNone
  | none => true

/-- Failure of the whole-trimmed-content parse attempt. -/
def trimParseFailed (content : List Char) : Bool :=
  (pyJsonLoads (String.mk (pyStrip content))).isNone

/-- Claim C3: when the preprocessed reply is neither parseable through
its first brace span nor parseable as JSON when trimmed, the pipeline
does not fail: it returns the fallback dict whose sql joins every kept
line (non-blank, not starting with the comment marker) with single
spaces, with confidence exactly 0.7 and visualization hint `table`. -/
theorem c3_fallback_extraction (reply : String)
    (h1 : spanParseFailed (preprocessContent reply) = true)
    (h2 : trimParseFailed (preprocessContent reply) = true) :
    processResponse reply =
      .ok [("sql", .jstr (fallbackSql (preprocessContent reply))),
           ("explanation", .jstr "Generated SQL query from natural language"),
           ("visualization_hint", .jstr "table"),
           ("confidence", .jnum ((7 : Rat) / 10))] := by
  simp only [processResponse, attemptParse]
  unfold spanParseFailed at h1
  unfold trimParseFailed at h2
  cases hspan : firstJsonSpan (preprocessContent reply) with
  | some span =>
    simp only [hspan] at h1
    have hnone : pyJsonLoads (String.mk span) = none :=
      Option.isNone_iff_eq_none.mp h1
    simp [hspan, hnone, fallbackFields]
  | none =>
    have hnone : pyJsonLoads (String.mk (pyStrip (preprocessContent reply))) = none :=
      Option.isNone_iff_eq_none.mp h2
    simp [hspan, hnone, fallbackFields]

/-- Claim C3 witness: the fallback theorem at a concrete prose reply
with a comment line. -/
theorem c3_fallback_extraction_witness :
    processResponse "SELECT *\nFROM t\n# comment" =
      .ok [("sql", .jstr (fallbackSql (preprocessContent "SELECT *\nFROM t\n# comment"))),
           ("explanation", .jstr "Generated SQL query from natural language"),
           ("visualization_hint", .jstr "table"),
           ("confidence", .jnum ((7 : Rat) / 10))] :=
  c3_fallback_extraction "SELECT *\nFROM t\n# comment" rfl rfl

/-! ## Claim C5 -/

/-- Spelling out of the required-field check over the three keys. -/
theorem requiredKeys_all_iff (fields : List (String × JVal)) :
    (requiredKeys.all (fun k => jobjHasKey fields k) = true) ↔
      (jobjHasKey fields "sql" = true ∧
       jobjHasKey fields "explanation" = true ∧
       jobjHasKey fields "visualization_hint" = true) := by
  simp [requiredKeys]

/-- Appending a fresh key makes it the last occurrence, so lookup
returns it. -/
theorem jobjGet_append_single (fields : List (String × JVal)) (k : String)
    (v : JVal) :
    jobjGet (fields ++ [(k, v)]) k = some v := by
  unfold jobjGet
  rw [List.reverse_append]
  simp

/-- Claim C5: for a reply whose parse attempt yields a JSON object,
the pipeline fails with the validation error exactly when one of
`sql`, `explanation`, `visualization_hint` is absent; when all three
are present and `confidence` is absent, the returned dict is the
parsed one extended with confidence 0.8, and looking up `confidence`
in it yields 0.8. -/
theorem c5_required_fields (reply : String) (fields : List (String × JVal))
    (h : attemptParse (preprocessContent reply) = some (.jobj fields)) :
    (processResponse reply = .error .responseValidation ↔
      ¬(jobjHasKey fields "sql" = true ∧
        jobjHasKey fields "explanation" = true ∧
        jobjHasKey fields "visualization_hint" = true)) ∧
    ((jobjHasKey fields "sql" = true ∧
      jobjHasKey fields "explanation" = true ∧
      jobjHasKey fields "visualization_hint" = true) →
      jobjHasKey fields "confidence" = false →
      processResponse reply =
        .ok (fields ++ [("confidence", .jnum ((4 : Rat) / 5))]) ∧
      jobjGet (fields ++ [("confidence", .jnum ((4 : Rat) / 5))]) "confidence" =
        some (.jnum ((4 : Rat) / 5))) := by
  have hpr : processResponse reply = validateResult (.jobj fields) := by
    simp only [processResponse]
    simp [h]
  rw [hpr]
  simp only [validateResult]
  by_cases hall : requiredKeys.all (fun k => jobjHasKey fields k) = true
  · rw [if_pos hall]
    rw [requiredKeys_all_iff] at hall
    refine ⟨by simp [hall], ?_⟩
    intro _ hconf
    rw [if_neg (by simp [hconf])]
    exact ⟨rfl, jobjGet_append_single fields "confidence" _⟩
  · rw [if_neg hall]
    rw [requiredKeys_all_iff] at hall
    refine ⟨by simp [hall], ?_⟩
    intro hyes _
    exact absurd hyes hall

/-- Reply whose parse yields the three required fields and no
confidence. -/
def c5Reply : String :=
  "\x7b\"sql\": \"SELECT 1\", \"explanation\": \"e\", \"visualization_hint\": \"table\"\x7d"

/-- The fields the parse of `c5Reply` yields. -/
def c5Fields : List (String × JVal) :=
  [("sql", .jstr "SELECT 1"), ("explanation", .jstr "e"),
   ("visualization_hint", .jstr "table")]

/-- Claim C5 witness: the validation theorem at a concrete reply with
all three fields present and confidence absent. -/
theorem c5_required_fields_witness :
    processResponse c5Reply =
      .ok (c5Fields ++ [("confidence", .jnum ((4 : Rat) / 5))]) ∧
    jobjGet (c5Fields ++ [("confidence", .jnum ((4 : Rat) / 5))]) "confidence" =
      some (.jnum ((4 : Rat) / 5)) :=
  (c5_required_fields c5Reply c5Fields rfl).2 ⟨rfl, rfl, rfl⟩ rfl

/-! ## Claim C4: helper lemmas -/

/-- Membership of the value `getLast?` returns. -/
theorem mem_of_getLast?_eq (z : Char) (l : List Char)
    (h : l.getLast? = some z) : z ∈ l := by
  obtain ⟨hne, hz⟩ := List.mem_getLast?_eq_getLast (l := l) (x := z) h
  rw [hz]
  exact List.getLast_mem hne

/-- Stripping is the identity on text with non-space first and last
characters. -/
theorem pyStrip_eq_self (a z : Char) (l : List Char)
    (hhead : l.head? = some a) (hlast : l.getLast? = some z)
    (ha : pyIsSpace a = false) (hz : pyIsSpace z = false) :
    pyStrip l = l := by
  obtain ⟨t, rfl⟩ : ∃ t, l = a :: t := by
    cases l with
    | nil => simp at hhead
    | cons x xs =>
      simp only [List.head?_cons, Option.some.injEq] at hhead
      exact ⟨xs, by rw [hhead]⟩
  unfold pyStrip
  rw [List.dropWhile_cons, if_neg (by simp [ha])]
  obtain ⟨r, hr⟩ : ∃ r, (a :: t).reverse = z :: r := by
    have hrev : (a :: t).reverse.head? = some z := by
      rw [List.head?_reverse]
      exact hlast
    cases hx : (a :: t).reverse with
    | nil => rw [hx] at hrev; simp at hrev
    | cons y ys =>
      rw [hx] at hrev
      simp only [List.head?_cons, Option.some.injEq] at hrev
      exact ⟨ys, by rw [hrev]⟩
  rw [hr, List.dropWhile_cons, if_neg (by simp [hz]), ← hr, List.reverse_reverse]

/-- Behaviour of the leading-fence strip when the marker is present. -/
theorem stripLeadFence_of_true (content : List Char)
    (hpre : ("```json".data.isPrefixOf content) = true) :
    stripLeadFence content = content.drop 7 := by
  unfold stripLeadFence
  rw [hpre]
  exact if_pos rfl

/-- Behaviour of the leading-fence strip when the marker is absent. -/
theorem stripLeadFence_of_false (content : List Char)
    (hpre : ("```json".data.isPrefixOf content) = false) :
    stripLeadFence content = content := by
  unfold stripLeadFence
  rw [hpre]
  exact if_neg (by simp)

/-- Behaviour of the trailing-fence strip when the marker is present. -/
theorem stripTrailFence_of_true (content : List Char)
    (hsuf : ("```".data.isSuffixOf content) = true) :
    stripTrailFence content = content.take (content.length - 3) := by
  unfold stripTrailFence
  rw [hsuf]
  exact if_pos rfl

/-- Behaviour of the trailing-fence strip when the marker is absent. -/
theorem stripTrailFence_of_false (content : List Char)
    (hsuf : ("```".data.isSuffixOf content) = false) :
    stripTrailFence content = content := by
  unfold stripTrailFence
  rw [hsuf]
  exact if_neg (by simp)

/-- Appending after a closing brace does not change the collected
span. -/
theorem takeThroughRBrace_append (l l2 : List Char) (h : '}' ∈ l) :
    takeThroughRBrace (l ++ l2) = takeThroughRBrace l := by
  induction l with
  | nil => simp at h
  | cons c cs ih =>
    simp only [List.cons_append, takeThroughRBrace, List.append_eq]
    by_cases hc : c = '}'
    · simp [hc]
    · have hmem : '}' ∈ cs :=
        List.mem_of_ne_of_mem (fun he => hc he.symm) h
      rw [if_neg hc, if_neg hc, ih hmem]

/-- A list containing a closing brace yields a span. -/
theorem takeThroughRBrace_isSome (l : List Char) (h : '}' ∈ l) :
    ∃ s, takeThroughRBrace l = some s := by
  induction l with
  | nil => simp at h
  | cons c cs ih =>
    by_cases hc : c = '}'
    · exact ⟨[c], by simp [takeThroughRBrace, hc]⟩
    · obtain ⟨s, hs⟩ := ih (List.mem_of_ne_of_mem (fun he => hc he.symm) h)
      exact ⟨c :: s, by simp [takeThroughRBrace, hc, hs]⟩

/-- Span extraction at an opening brace. -/
theorem firstJsonSpan_cons_brace (rest : List Char) :
    firstJsonSpan ('{' :: rest) =
      (takeThroughRBrace rest).map (fun l => '{' :: l) := by
  simp only [firstJsonSpan, List.dropWhile_cons]
  simp

/-- Span extraction skips a non-brace head character. -/
theorem firstJsonSpan_cons_other (c : Char) (rest : List Char)
    (hc : (c == '{') = false) :
    firstJsonSpan (c :: rest) = firstJsonSpan rest := by
  simp only [firstJsonSpan, List.dropWhile_cons]
  simp [hc]

/-- Newline splitting never yields the empty list of pieces. -/
theorem pySplitNl_ne_nil (l : List Char) : pySplitNl l ≠ [] := by
  cases l with
  | nil => simp [pySplitNl]
  | cons c cs =>
    simp only [pySplitNl]
    by_cases hc : c = '\n'
    · simp [hc]
    · rw [if_neg hc]
      cases hx : pySplitNl cs with
      | nil => simp
      | cons w ws => simp

/-- A trailing newline contributes one final empty piece. -/
theorem pySplitNl_append_nl (l : List Char) :
    pySplitNl (l ++ ['\n']) = pySplitNl l ++ [[]] := by
  induction l with
  | nil => rfl
  | cons c cs ih =>
    simp only [List.cons_append, pySplitNl, List.append_eq]
    by_cases hc : c = '\n'
    · rw [if_pos hc, if_pos hc, ih]
      simp
    · rw [if_neg hc, if_neg hc, ih]
      cases hx : pySplitNl cs with
      | nil => exact absurd hx (pySplitNl_ne_nil cs)
      | cons w ws => simp [hx]

/-! ## Claim C4 -/

/-- Claim C4: wrapping a JSON object body in code-fence markers does
not change the pipeline's output — the fence-wrapped reply and the
bare reply are processed identically, whatever the body (the theorem
needs only that the body starts with an opening brace and ends with a
closing one, which every JSON object text does; its validity as JSON
is not even required). -/
theorem c4_fence_wrapped_equivalent (j : String)
    (hhead : j.data.head? = some '{')
    (hlast : j.data.getLast? = some '}') :
    processResponse (String.mk ("```json\n".data ++ (j.data ++ "\n```".data))) =
      processResponse j := by
  obtain ⟨t, hjt⟩ : ∃ t, j.data = '{' :: t := by
    cases hj : j.data with
    | nil => rw [hj] at hhead; simp at hhead
    | cons x xs =>
      rw [hj] at hhead
      simp only [List.head?_cons, Option.some.injEq] at hhead
      exact ⟨xs, by rw [hhead]⟩
  have hmemt : ('}' : Char) ∈ t := by
    have hmem : ('}' : Char) ∈ j.data := mem_of_getLast?_eq '}' j.data hlast
    rw [hjt] at hmem
    exact List.mem_of_ne_of_mem (by decide) hmem
  -- preprocessing of the bare reply is the identity
  have hcontent2 : preprocessContent j = j.data := by
    unfold preprocessContent stripFences
    rw [pyStrip_eq_self '{' '}' j.data hhead hlast (by decide) (by decide)]
    have hpre2 : ("```json".data.isPrefixOf j.data) = false := by
      rw [hjt, show "```json".data = '`' :: "``json".data from rfl]
      simp [List.isPrefixOf]
    have hsuf2 : ("```".data.isSuffixOf j.data) = false := by
      cases hb : ("```".data.isSuffixOf j.data) with
      | false => rfl
      | true =>
        exfalso
        rw [List.isSuffixOf_iff_suffix] at hb
        obtain ⟨u, hu⟩ := hb
        have hg := congrArg List.getLast? hu
        rw [List.getLast?_append_of_ne_nil u (by decide), hlast] at hg
        simp at hg
    rw [stripLeadFence_of_false j.data hpre2, stripTrailFence_of_false j.data hsuf2]
  -- preprocessing of the fence-wrapped reply strips the markers
  have hcontent1 :
      preprocessContent
          (String.mk ("```json\n".data ++ (j.data ++ "\n```".data))) =
        '\n' :: (j.data ++ ['\n']) := by
    unfold preprocessContent stripFences
    show stripTrailFence (stripLeadFence
        (pyStrip ("```json\n".data ++ (j.data ++ "\n```".data)))) = _
    have hbigne : (j.data ++ "\n```".data) ≠ [] := by
      intro hcontr
      exact absurd (List.append_eq_nil.mp hcontr).2 (by decide)
    have hstrip1 :
        pyStrip ("```json\n".data ++ (j.data ++ "\n```".data)) =
          "```json\n".data ++ (j.data ++ "\n```".data) := by
      apply pyStrip_eq_self '`' '`'
      · rw [show "```json\n".data = '`' :: "``json\n".data from rfl]
        simp
      · rw [List.getLast?_append_of_ne_nil _ hbigne,
            List.getLast?_append_of_ne_nil _ (by decide)]
        rfl
      · decide
      · decide
    rw [hstrip1]
    have hpre1 :
        ("```json".data.isPrefixOf
          ("```json\n".data ++ (j.data ++ "\n```".data))) = true := by
      rw [List.isPrefixOf_iff_prefix,
          show "```json\n".data = "```json".data ++ ['\n'] from rfl,
          List.append_assoc]
      exact List.prefix_append _ _
    rw [stripLeadFence_of_true _ hpre1]
    have hdrop :
        ("```json\n".data ++ (j.data ++ "\n```".data)).drop 7 =
          '\n' :: (j.data ++ "\n```".data) := by
      rw [show "```json\n".data = "```json".data ++ ['\n'] from rfl,
          List.append_assoc,
          show (7 : Nat) = "```json".data.length from rfl,
          List.drop_left]
      rfl
    rw [hdrop]
    have hre :
        '\n' :: (j.data ++ "\n```".data) =
          ('\n' :: (j.data ++ ['\n'])) ++ "```".data := by
      rw [show "\n```".data = '\n' :: "```".data from rfl]
      simp
    rw [hre]
    have hsuf1 :
        ("```".data.isSuffixOf
          (('\n' :: (j.data ++ ['\n'])) ++ "```".data)) = true := by
      rw [List.isSuffixOf_iff_suffix]
      exact List.suffix_append _ _
    rw [stripTrailFence_of_true _ hsuf1]
    have hlen3 :
        (('\n' :: (j.data ++ ['\n'])) ++ "```".data).length - 3 =
          ('\n' :: (j.data ++ ['\n'])).length := by
      simp
    rw [hlen3, List.take_left]
  -- both contents extract the same brace span
  obtain ⟨s, hs⟩ := takeThroughRBrace_isSome t hmemt
  have hspan2 : firstJsonSpan j.data = some ('{' :: s) := by
    rw [hjt, firstJsonSpan_cons_brace, hs]
    rfl
  have hspan1 : firstJsonSpan ('\n' :: (j.data ++ ['\n'])) = some ('{' :: s) := by
    rw [firstJsonSpan_cons_other '\n' _ (by decide), hjt,
        show ('{' :: t) ++ ['\n'] = '{' :: (t ++ ['\n']) from rfl,
        firstJsonSpan_cons_brace, takeThroughRBrace_append t ['\n'] hmemt, hs]
    rfl
  -- the fallback extraction agrees on both contents
  have hsql : fallbackSql ('\n' :: (j.data ++ ['\n'])) = fallbackSql j.data := by
    unfold fallbackSql
    have h1 : pySplitNl ('\n' :: (j.data ++ ['\n'])) =
        [] :: (pySplitNl j.data ++ [[]]) := by
      have h0 : pySplitNl ('\n' :: (j.data ++ ['\n'])) =
          [] :: pySplitNl (j.data ++ ['\n']) := by
        simp [pySplitNl]
      rw [h0, pySplitNl_append_nl]
    rw [h1, List.filter_cons, if_neg (by decide), List.filter_append]
    have hnil : List.filter
        (fun l => !(pyStrip l).isEmpty && !("#".data.isPrefixOf (pyStrip l)))
        ([[]] : List (List Char)) = [] := by decide
    rw [hnil, List.append_nil]
  -- assemble
  unfold processResponse attemptParse
  rw [hcontent1, hcontent2, hspan1, hspan2]
  cases hv : pyJsonLoads (String.mk ('{' :: s)) with
  | some v => simp [hv]
  | none => simp [hv, fallbackFields, hsql]

/-- Body used by the C4 witness: a complete model answer object. -/
def c4Body : String :=
  "\x7b\"sql\": \"SELECT 1\", \"explanation\": \"e\", \"visualization_hint\": \"kpi\", \"confidence\": 0.9\x7d"

/-- Claim C4 witness: the fence-equivalence theorem at a concrete
JSON object body. -/
theorem c4_fence_wrapped_equivalent_witness :
    processResponse
        (String.mk ("```json\n".data ++ (c4Body.data ++ "\n```".data))) =
      processResponse c4Body :=
  c4_fence_wrapped_equivalent c4Body rfl rfl

end AskDash
